import Mathlib

/-!
Verification development for the `osm-pbf` reader library.

The Rust sources are shallowly embedded:
* protobuf messages (generated code, external to the crate sources) become plain
  Lean structures holding the values their accessors return;
* byte strings (`Bytes`, `&[u8]`, `String`) become `List Nat` (one `Nat` per byte);
* machine integers (`i32`, `i64`, `u32`) become `Int` (overflow plays no role in
  the studied claims); the `as usize` / `as u32` casts, whose wrapping behaviour
  does matter for index lookups, are modelled explicitly;
* iterators become pure functions from their captured state; the unbounded
  `loop` in `PrimitivesIter::next` becomes a fuel-indexed step function
  (`primNextGo`) together with an adequacy lemma showing the fuel bound
  `groups.length + 1` is never exhausted;
* a Rust panic (out-of-bounds slice index) becomes an explicit `panic` outcome;
* the protobuf wire decoder and the compression codecs are out of scope for the
  crate (black boxes); the frame-reader functions take the message parsers as
  function parameters.
-/

namespace OsmPbf

/-- `v as usize` for a 32-bit Rust value `v` (two's-complement wrap to 64 bits):
negative values become huge indices, so slice lookups with them fail. -/
def idxOfI32 (v : Int) : Nat :=
  if 0 ≤ v then v.toNat else (2 ^ 64 + v).toNat

/-- `v as u32` for a 32-bit Rust value `v` (two's-complement wrap to 32 bits). -/
def u32OfI32 (v : Int) : Nat :=
  (v % 2 ^ 32).toNat

/-- Is `b` a UTF-8 continuation byte (`0x80..=0xBF`)? -/
def isCont (b : Nat) : Bool :=
  0x80 ≤ b && b ≤ 0xBF

/-- One step of the standard UTF-8 (RFC 3629) acceptance automaton, the
validity check performed by `std::str::from_utf8`.  State `0` expects a lead
byte; states `1`..`3` expect that many generic continuation bytes; states
`4`..`7` are the restricted-second-byte states after `E0`, `ED`, `F0`, `F4`. -/
def utf8Step (st b : Nat) : Option Nat :=
  match st with
  | 0 =>
    if b ≤ 0x7F then some 0
    else if 0xC2 ≤ b && b ≤ 0xDF then some 1
    else if b = 0xE0 then some 4
    else if b = 0xED then some 5
    else if 0xE1 ≤ b && b ≤ 0xEF then some 2
    else if b = 0xF0 then some 6
    else if b = 0xF4 then some 7
    else if 0xF1 ≤ b && b ≤ 0xF3 then some 3
    else none
  | 1 => if isCont b then some 0 else none
  | 2 => if isCont b then some 1 else none
  | 3 => if isCont b then some 2 else none
  | 4 => if 0xA0 ≤ b && b ≤ 0xBF then some 1 else none
  | 5 => if 0x80 ≤ b && b ≤ 0x9F then some 1 else none
  | 6 => if 0x90 ≤ b && b ≤ 0xBF then some 2 else none
  | 7 => if 0x80 ≤ b && b ≤ 0x8F then some 2 else none
  | _ => none

/-- Run the UTF-8 automaton from state `st` over the remaining bytes. -/
def utf8ValidFrom (st : Nat) : List Nat → Bool
  | [] => st == 0
  | b :: r =>
    match utf8Step st b with
    | some st2 => utf8ValidFrom st2 r
    | none => false

/-- `std::str::from_utf8(bytes).is_ok()`: the byte string is valid UTF-8. -/
def utf8Valid (l : List Nat) : Bool :=
  utf8ValidFrom 0 l

/-! ## Data model (osmformat protobuf messages, values as their accessors return them) -/

/-- `osmformat::Info` as materialised by `NodeRef::info` (optional metadata). -/
structure Info where
  version : Option Int
  timestamp : Option Int
  changeset : Option Int
  uid : Option Int
  user_sid : Option Nat
  visible : Option Bool
deriving DecidableEq, Repr

/-- `osmformat::DenseInfo`: parallel per-index metadata arrays of a dense run. -/
structure DenseInfo where
  version : List Int
  timestamp : List Int
  changeset : List Int
  uid : List Int
  user_sid : List Int
  visible : List Bool
deriving DecidableEq, Repr

/-- `osmformat::Node` (non-dense). -/
structure Node where
  id : Int
  lat : Int
  lon : Int
  keys : List Nat
  vals : List Nat
  info : Info
deriving DecidableEq, Repr

/-- `osmformat::DenseNodes`: parallel delta-coded arrays plus the flat
`keys_vals` tag stream. -/
structure DenseNodes where
  id : List Int
  lat : List Int
  lon : List Int
  keys_vals : List Int
  denseinfo : DenseInfo
deriving DecidableEq, Repr

/-- `osmformat::Way`. -/
structure Way where
  id : Int
  keys : List Nat
  vals : List Nat
  refs : List Int
deriving DecidableEq, Repr

/-- `osmformat::Relation` (member type enums kept as raw wire integers,
`NODE = 0`, `WAY = 1`, `RELATION = 2`). -/
structure Relation where
  id : Int
  keys : List Nat
  vals : List Nat
  roles_sid : List Int
  memids : List Int
  types : List Int
deriving DecidableEq, Repr

/-- `osmformat::ChangeSet`. -/
structure ChangeSet where
  id : Int
deriving DecidableEq, Repr

/-- `osmformat::PrimitiveGroup`. -/
structure PrimitiveGroup where
  nodes : List Node
  dense : Option DenseNodes
  ways : List Way
  relations : List Relation
  changesets : List ChangeSet
deriving DecidableEq, Repr

/-- `osmformat::PrimitiveBlock` (string table entries are byte strings). -/
structure PrimitiveBlock where
  stringtable : List (List Nat)
  granularity : Int
  lat_offset : Int
  lon_offset : Int
  date_granularity : Int
  primitivegroup : List PrimitiveGroup
deriving DecidableEq, Repr

/-! ## Tag iteration (`Tags` in `proto/src/primitives.rs`) -/

/-- `s.get(i).and_then(|b| std::str::from_utf8(b).ok())`: string-table lookup
returning the bytes only when in range and valid UTF-8. -/
def lookupValidStr (s : List (List Nat)) (i : Nat) : Option (List Nat) :=
  match s[i]? with
  | some b => if utf8Valid b then some b else none
  | none => none

/-- `Tags::next`, normal layout: `keys`/`vals` advance in lockstep, pairs with
an out-of-range index or invalid UTF-8 on either side are skipped. -/
def tagsNormal (s : List (List Nat)) : List Nat → List Nat → List (List Nat × List Nat)
  | k :: ks, v :: vs =>
    match lookupValidStr s k, lookupValidStr s v with
    | some kb, some vb => (kb, vb) :: tagsNormal s ks vs
    | _, _ => tagsNormal s ks vs
  | _, _ => []

/-- `Tags::next`, dense layout: the flat `i32` stream is consumed pairwise
(`as usize` on each index), a lone trailing key ends iteration. -/
def tagsDense (s : List (List Nat)) : List Int → List (List Nat × List Nat)
  | k :: v :: kvs =>
    match lookupValidStr s (idxOfI32 k), lookupValidStr s (idxOfI32 v) with
    | some kb, some vb => (kb, vb) :: tagsDense s kvs
    | _, _ => tagsDense s kvs
  | _ => []

/-- `Tags::get`, normal layout, exactly as written in the source: each loop
iteration consumes one entry of `keys`, but `vals` is only advanced after the
first key match (there is no `vals.next()` on the non-matching paths). -/
def tagsGetNormal (s : List (List Nat)) (key : List Nat) :
    List Nat → List Nat → Option (List Nat)
  | k :: ks, vals =>
    match s[k]? with
    | some kb =>
      if kb = key then
        match vals with
        | v :: _ =>
          match s[v]? with
          | some vb => if utf8Valid vb then some vb else none
          | none => none
        | [] => none
      else tagsGetNormal s key ks vals
    | none => tagsGetNormal s key ks vals
  | [], _ => none

/-- `Tags::get`, dense layout: both indices of a pair are consumed before the
key is compared. -/
def tagsGetDense (s : List (List Nat)) (key : List Nat) : List Int → Option (List Nat)
  | k :: kvs =>
    match kvs with
    | v :: rest =>
      match s[idxOfI32 k]? with
      | some kb =>
        if kb = key then
          match s[idxOfI32 v]? with
          | some vb => if utf8Valid vb then some vb else none
          | none => none
        else tagsGetDense s key rest
      | none => tagsGetDense s key rest
    | [] => none
  | [] => none

/-- Spec-side description of one tag pair: keep it iff both indices are in
range and both byte strings are valid UTF-8. -/
def tagPairOk (s : List (List Nat)) (p : Nat × Nat) : Option (List Nat × List Nat) :=
  match lookupValidStr s p.1, lookupValidStr s p.2 with
  | some kb, some vb => some (kb, vb)
  | _, _ => none

/-- Split a flat stream into consecutive pairs, dropping a lone trailing item. -/
def chunkPairs : List Int → List (Int × Int)
  | a :: b :: r => (a, b) :: chunkPairs r
  | _ => []

/-! ## Relation members (`src/data/relation.rs`) -/

/-- A logical relation member (`Member::{Node,Way,Relation}`); the role string
is kept as bytes. -/
inductive Member where
  | node (id : Int) (role : List Nat)
  | way (id : Int) (role : List Nat)
  | relation (id : Int) (role : List Nat)
deriving DecidableEq, Repr

/-- `Members::next` run to exhaustion: zip `roles_sid`/`memids`/`types`, stop
at the first exhausted array, skip entries whose type enum is unrecognised,
fall back to the empty role when `roles_sid` is out of range.  Member ids are
emitted exactly as `member_ids.next()` returns them. -/
def membersList (strings : List (List Nat)) :
    List Int → List Int → List Int → List Member
  | r :: rs, m :: ms, t :: ts =>
    if t = 0 ∨ t = 1 ∨ t = 2 then
      (if t = 0 then Member.node m ((strings[idxOfI32 r]?).getD [])
       else if t = 1 then Member.way m ((strings[idxOfI32 r]?).getD [])
       else Member.relation m ((strings[idxOfI32 r]?).getD [])) ::
        membersList strings rs ms ts
    else membersList strings rs ms ts
  | _, _, _ => []

/-! ## The primitive iterator (`PrimitivesIter` in `proto/src/primitives.rs`) -/

/-- The payload of a `NodeRef`: either the borrowed fields of a non-dense
`Node`, or the sliced `keys_vals` run and the `DenseInfo` of a dense node. -/
inductive NodeData where
  | node (keys : List Nat) (vals : List Nat) (info : Info)
  | denseNode (kv_pairs : List Int) (info : DenseInfo)
deriving DecidableEq, Repr

/-- `NodeRef`: id and rescaled nanodegree coordinates plus the tag payload. -/
structure NodeRef where
  id : Int
  nano_lat : Int
  nano_lon : Int
  index : Nat
  data : NodeData
deriving DecidableEq, Repr

/-- The iterator's dense decumulation state. -/
structure DenseState where
  id : Int
  lat : Int
  lon : Int
  kv_pos : Nat
deriving DecidableEq, Repr

/-- `NodeRef::from_node`. -/
def NodeRef.from_node (index : Nat) (n : Node) (block : PrimitiveBlock) : NodeRef where
  id := n.id
  nano_lat := block.lat_offset + n.lat * block.granularity
  nano_lon := block.lon_offset + n.lon * block.granularity
  index := index
  data := .node n.keys n.vals n.info

/-- `NodeRef::from_dense_node`. -/
def NodeRef.from_dense_node (index : Nat) (dense_state : DenseState)
    (kv_pairs : List Int) (info : DenseInfo) (block : PrimitiveBlock) : NodeRef where
  id := dense_state.id
  nano_lat := block.lat_offset + dense_state.lat * block.granularity
  nano_lon := block.lon_offset + dense_state.lon * block.granularity
  index := index
  data := .denseNode kv_pairs info

/-- `NodeRef::info`: direct clone for a non-dense node; for a dense node the
`DenseInfo` arrays are read at `self.index` as stored (`get(index).copied()`). -/
def NodeRef.info (nr : NodeRef) : Info :=
  match nr.data with
  | .node _ _ i => i
  | .denseNode _ di =>
    { version := di.version[nr.index]?
      timestamp := di.timestamp[nr.index]?
      changeset := di.changeset[nr.index]?
      uid := di.uid[nr.index]?
      user_sid := (di.user_sid[nr.index]?).map u32OfI32
      visible := di.visible[nr.index]? }

/-- A yielded `Primitive`. -/
inductive Primitive where
  | node (n : NodeRef)
  | way (w : Way)
  | relation (r : Relation)
  | changeset (c : ChangeSet)
deriving DecidableEq, Repr

/-- The mutable state of `PrimitivesIter` (`block`, `groups` and `filter` are
immutable captures and are passed separately). -/
structure IterState where
  group_pos : Nat
  prim_pos : Nat
  dense_state : DenseState
deriving DecidableEq, Repr

/-- Outcome of one `next` call: `Some(primitive)` with the successor state,
`None`, or a Rust panic (out-of-bounds slice index). -/
inductive StepResult where
  | yield (p : Primitive) (st : IterState)
  | done
  | panic
deriving DecidableEq, Repr

/-- `filter.contains(PrimitiveType::NODE)` (bit 0 of the bitflags value). -/
def containsNode (filter : Nat) : Bool := filter.testBit 0

/-- `filter.contains(PrimitiveType::WAY)` (bit 1). -/
def containsWay (filter : Nat) : Bool := filter.testBit 1

/-- `filter.contains(PrimitiveType::RELATION)` (bit 2). -/
def containsRelation (filter : Nat) : Bool := filter.testBit 2

/-- `filter.contains(PrimitiveType::CHANGE_SET)` (bit 3). -/
def containsChangeSet (filter : Nat) : Bool := filter.testBit 3

/-- `PrimitiveType::DEFAULT = NODE | WAY | RELATION`. -/
def defaultFilter : Nat := 7

/-- The `while let Some(k) = keys_vals.get(kv_pos)` loop of the dense branch,
with explicit fuel: advance by 1 on a zero entry and by 2 on a nonzero one
until the position runs off the stream.  (The loop body contains no `break`,
so a zero entry does not stop the scan.) -/
def kvEndGo (kv : List Int) : Nat → Nat → Nat
  | 0, pos => pos
  | fuel + 1, pos =>
    match kv[pos]? with
    | none => pos
    | some k => if k = 0 then kvEndGo kv fuel (pos + 1) else kvEndGo kv fuel (pos + 2)

/-- Final `kv_pos` of the dense key-value scan started at `pos`.  The fuel
`kv.length + 1` always suffices: every iteration either stops (position off
the stream) or advances the position by at least one. -/
def kvEnd (kv : List Int) (pos : Nat) : Nat :=
  kvEndGo kv (kv.length + 1) pos

/-- Rust slice indexing `&l[a..b]`: panics (`none`) unless `a ≤ b ≤ l.len()`. -/
def listSlice {α : Type} (l : List α) (a b : Nat) : Option (List α) :=
  if a ≤ b ∧ b ≤ l.length then some ((l.drop a).take (b - a)) else none

/-- The default `DenseNodes` instance a `MessageField` dereferences to. -/
def denseNodesNull : DenseNodes :=
  ⟨[], [], [], [], ⟨[], [], [], [], [], []⟩⟩

/-- `PrimitivesIter::next`, fuel-indexed: one unfolding per `loop` iteration.
Each iteration inspects the group at `group_pos` and takes the first branch of
the `if`/`else if` chain whose category is selected and non-empty; a branch
whose position is exhausted (and the final catch-all) falls through to
`group_pos += 1` and loops.  Only the dense branch resets `dense_state`;
`prim_pos` is never reset.  `none` means the fuel ran out (never happens with
fuel `groups.length + 1`, see `primNextGo_isSome`). -/
def primNextGo (block : PrimitiveBlock) (groups : List PrimitiveGroup) (filter : Nat) :
    Nat → IterState → Option StepResult
  | 0, _ => none
  | fuel + 1, st =>
    match groups[st.group_pos]? with
    | none => some .done
    | some group =>
      if containsNode filter && !group.nodes.isEmpty then
        match group.nodes[st.prim_pos]? with
        | some n =>
          some (.yield (.node (NodeRef.from_node st.prim_pos n block))
            ⟨st.group_pos, st.prim_pos + 1, st.dense_state⟩)
        | none =>
          primNextGo block groups filter fuel
            ⟨st.group_pos + 1, st.prim_pos, st.dense_state⟩
      else if containsNode filter && (group.dense.isSome : Bool) then
        match (group.dense.getD denseNodesNull).id[st.prim_pos]?,
            (group.dense.getD denseNodesNull).lat[st.prim_pos]?,
            (group.dense.getD denseNodesNull).lon[st.prim_pos]? with
        | some did, some dlat, some dlon =>
          let dense := group.dense.getD denseNodesNull
          let index := st.prim_pos
          let ds1 : DenseState :=
            ⟨st.dense_state.id + did, st.dense_state.lat + dlat,
              st.dense_state.lon + dlon, st.dense_state.kv_pos⟩
          let kv_from := ds1.kv_pos
          let kv_to := kvEnd dense.keys_vals kv_from
          let ds2 : DenseState := ⟨ds1.id, ds1.lat, ds1.lon, kv_to⟩
          match listSlice dense.keys_vals kv_from kv_to with
          | none => some .panic
          | some key_values =>
            some (.yield
              (.node (NodeRef.from_dense_node index ds2 key_values dense.denseinfo block))
              ⟨st.group_pos, index + 1, ds2⟩)
        | _, _, _ =>
          primNextGo block groups filter fuel
            ⟨st.group_pos + 1, st.prim_pos, ⟨0, 0, 0, 0⟩⟩
      else if containsWay filter && !group.ways.isEmpty then
        match group.ways[st.prim_pos]? with
        | some w =>
          some (.yield (.way w) ⟨st.group_pos, st.prim_pos + 1, st.dense_state⟩)
        | none =>
          primNextGo block groups filter fuel
            ⟨st.group_pos + 1, st.prim_pos, st.dense_state⟩
      else if containsRelation filter && !group.relations.isEmpty then
        match group.relations[st.prim_pos]? with
        | some r =>
          some (.yield (.relation r) ⟨st.group_pos, st.prim_pos + 1, st.dense_state⟩)
        | none =>
          primNextGo block groups filter fuel
            ⟨st.group_pos + 1, st.prim_pos, st.dense_state⟩
      else if containsChangeSet filter && !group.changesets.isEmpty then
        match group.changesets[st.prim_pos]? with
        | some c =>
          some (.yield (.changeset c) ⟨st.group_pos, st.prim_pos + 1, st.dense_state⟩)
        | none =>
          primNextGo block groups filter fuel
            ⟨st.group_pos + 1, st.prim_pos, st.dense_state⟩
      else
        primNextGo block groups filter fuel
          ⟨st.group_pos + 1, st.prim_pos, st.dense_state⟩

/-- `PrimitivesIter::next` as a total function: the loop runs for at most
`groups.length + 1` iterations (each non-returning iteration increments
`group_pos`, and the iteration with `group_pos ≥ groups.length` returns
`done`), so this fuel is adequate and the `getD` fallback is dead code. -/
def primNext (block : PrimitiveBlock) (groups : List PrimitiveGroup) (filter : Nat)
    (st : IterState) : StepResult :=
  (primNextGo block groups filter (groups.length + 1) st).getD .done

/-- Run the iterator collecting yields: returns the emitted primitives and
`some true` if it finished with `None`, `some false` on a panic, `none` if the
collection fuel ran out. -/
def primRun (block : PrimitiveBlock) (groups : List PrimitiveGroup) (filter : Nat) :
    Nat → IterState → List Primitive × Option Bool
  | 0, _ => ([], none)
  | fuel + 1, st =>
    match primNext block groups filter st with
    | .done => ([], some true)
    | .panic => ([], some false)
    | .yield p st2 =>
      let r := primRun block groups filter fuel st2
      (p :: r.1, r.2)

/-- Result of the `n`-th call to `next` (0-indexed) starting from state `st`;
if an earlier call returns `done` or panics, that outcome is returned. -/
def primCall (block : PrimitiveBlock) (groups : List PrimitiveGroup) (filter : Nat) :
    Nat → IterState → StepResult
  | 0, st => primNext block groups filter st
  | n + 1, st =>
    match primNext block groups filter st with
    | .yield _ st2 => primCall block groups filter n st2
    | r => r

/-- Observe a yielded node's id and nanodegree coordinates. -/
def resultIdLatLon : StepResult → Option (Int × Int × Int)
  | .yield (.node nr) _ => some (nr.id, nr.nano_lat, nr.nano_lon)
  | _ => none

/-- Observe a primitive's category (0/1/2/3) and id. -/
def Primitive.kindId : Primitive → Nat × Int
  | .node nr => (0, nr.id)
  | .way w => (1, w.id)
  | .relation r => (2, r.id)
  | .changeset c => (3, c.id)

/-- Observe the dense `keys_vals` slice attached to a yielded node. -/
def Primitive.kvSlice : Primitive → Option (List Int)
  | .node nr =>
    match nr.data with
    | .denseNode kv _ => some kv
    | _ => none
  | _ => none

/-! ## Frame reader (`reader/src/blob.rs`)

The byte source is an in-memory cursor (`data`, `pos`).  The protobuf message
parsers are black boxes (external collaborators of the crate) and are passed
as function parameters `List Nat → Option M`; `none` stands for any protobuf
parse failure on the given window. -/

/-- `fileformat::BlobHeader` (`type` string and `datasize : i32`). -/
structure BlobHeader where
  type : String
  datasize : Int
deriving DecidableEq, Repr

/-- `osmformat::HeaderBlock`, restricted to the feature lists the reader's
contract concerns. -/
structure HeaderBlock where
  required_features : List String
  optional_features : List String
deriving DecidableEq, Repr

/-- The reader's error kinds (`reader/src/error.rs` is not among the sources;
the variant names follow the spec's taxonomy and the constructors used in
`blob.rs`; `unknownRequiredFeature` is listed by the spec's taxonomy but is
never produced by the sources). -/
inductive Error where
  | ioUnexpectedEof
  | blobHeaderToLarge
  | blobDataToLarge
  | unexpectedBlobType (t : String)
  | protobufParse
  | unsupportedEncoding
  | unknownRequiredFeature (t : String)
deriving DecidableEq, Repr

/-- An in-memory byte source with its read position (an `io::Cursor`). -/
structure ByteReader where
  data : List Nat
  pos : Nat
deriving DecidableEq, Repr

/-- `reader.read_u32::<BigEndian>()`: reads exactly 4 bytes; any shortfall
(0 to 3 bytes available) is an `UnexpectedEof`-kind io error (`none`). -/
def readU32BE (r : ByteReader) : Option (Nat × ByteReader) :=
  match r.data[r.pos]?, r.data[r.pos + 1]?,
      r.data[r.pos + 2]?, r.data[r.pos + 3]? with
  | some b0, some b1, some b2, some b3 =>
    some (((b0 * 256 + b1) * 256 + b2) * 256 + b3, ⟨r.data, r.pos + 4⟩)
  | _, _, _, _ => none

/-- `reader.by_ref().take(n)`: the window of at most `n` bytes from the
current position, and the reader advanced past it. -/
def readWindow (r : ByteReader) (n : Nat) : List Nat × ByteReader :=
  ((r.data.drop r.pos).take n, ⟨r.data, min (r.pos + n) r.data.length⟩)

/-- `MAX_HEADER_SIZE = 64 * 1024`. -/
def MAX_HEADER_SIZE : Nat := 64 * 1024

/-- `MAX_UNCOMPRESSED_DATA_SIZE = 32 * 1024 * 1024`. -/
def MAX_UNCOMPRESSED_DATA_SIZE : Nat := 32 * 1024 * 1024

/-- `Blobs::_read_blob_header`: read the big-endian `header_size` prefix
(`UnexpectedEof` io errors become a clean `Ok(None)`), bound it, parse the
`BlobHeader` from exactly that window, then bound `datasize as usize`. -/
def readBlobHeader (parseBH : List Nat → Option BlobHeader) (r : ByteReader) :
    Except Error (Option (BlobHeader × ByteReader)) :=
  match readU32BE r with
  | none => .ok none
  | some (header_size, r1) =>
    if header_size > MAX_HEADER_SIZE then .error .blobHeaderToLarge
    else
      match parseBH (readWindow r1 header_size).1 with
      | none => .error .protobufParse
      | some header =>
        if idxOfI32 header.datasize > MAX_UNCOMPRESSED_DATA_SIZE then
          .error .blobDataToLarge
        else .ok (some (header, (readWindow r1 header_size).2))

/-- The frame reader (`Blobs`): the eagerly decoded header block plus the
byte source. -/
structure Blobs where
  header : HeaderBlock
  reader : ByteReader
deriving DecidableEq, Repr

/-- `Blobs::next_blob` (`β` is the blob message type, parsed by `parseBlob`). -/
def nextBlob {β : Type} (parseBH : List Nat → Option BlobHeader)
    (parseBlob : List Nat → Option β) (b : Blobs) :
    Except Error (Option ((BlobHeader × β) × Blobs)) :=
  match readBlobHeader parseBH b.reader with
  | .error e => .error e
  | .ok none => .ok none
  | .ok (some (header, r1)) =>
    match parseBlob (readWindow r1 (idxOfI32 header.datasize)).1 with
    | none => .error .protobufParse
    | some blob =>
      .ok (some ((header, blob), ⟨b.header, (readWindow r1 (idxOfI32 header.datasize)).2⟩))

/-- `Blobs::next_primitive_block`: like `next_blob` but rejects any frame
whose type string is not `"OSMData"`. -/
def nextPrimitiveBlock {β : Type} (parseBH : List Nat → Option BlobHeader)
    (parseBlob : List Nat → Option β) (b : Blobs) :
    Except Error (Option (β × Blobs)) :=
  match readBlobHeader parseBH b.reader with
  | .error e => .error e
  | .ok none => .ok none
  | .ok (some (header, r1)) =>
    if header.type == "OSMData" then
      match parseBlob (readWindow r1 (idxOfI32 header.datasize)).1 with
      | none => .error .protobufParse
      | some blob =>
        .ok (some (blob, ⟨b.header, (readWindow r1 (idxOfI32 header.datasize)).2⟩))
    else .error (.unexpectedBlobType header.type)

/-- `Blobs::rewind` (`R: io::Seek`): `self.reader.rewind()` seeks the source
back to position 0 and nothing else. -/
def Blobs.rewind (b : Blobs) : Blobs :=
  ⟨b.header, ⟨b.reader.data, 0⟩⟩

/-- `Blobs::from_buf_read` / `_read_header_block`: read the first frame, fail
on a missing frame or a type other than `"OSMHeader"`, decode the header block
from the frame's data window, and return the reader.  No inspection of the
header's feature lists takes place. -/
def fromBufRead (parseBH : List Nat → Option BlobHeader)
    (parseHB : List Nat → Option HeaderBlock) (r : ByteReader) :
    Except Error Blobs :=
  match readBlobHeader parseBH r with
  | .error e => .error e
  | .ok none => .error .ioUnexpectedEof
  | .ok (some (header, r1)) =>
    if header.type == "OSMHeader" then
      match parseHB (readWindow r1 (idxOfI32 header.datasize)).1 with
      | none => .error .protobufParse
      | some hb => .ok ⟨hb, (readWindow r1 (idxOfI32 header.datasize)).2⟩
    else .error (.unexpectedBlobType header.type)

/-- `header::DENSE_NODES`. -/
def DENSE_NODES : String := "DenseNodes"

/-- `header::HISTORICAL_INFORMATION`. -/
def HISTORICAL_INFORMATION : String := "HistoricalInformation"

/-- The required-feature vocabulary declared in `reader/src/header.rs`. -/
def knownRequiredFeatures : List String := [DENSE_NODES, HISTORICAL_INFORMATION]

/-! ## Supporting lemmas -/

/-- Cumulative sum of the first `n` entries of a delta array. -/
def sumTo (l : List Int) (n : Nat) : Int :=
  (l.take n).sum

lemma sumTo_succ (l : List Int) (j : Nat) (h : j < l.length) :
    sumTo l (j + 1) = sumTo l j + l[j] := by
  unfold sumTo
  rw [List.take_succ, List.sum_append, List.getElem?_eq_getElem h]
  simp

lemma kvEndGo_of_le (kv : List Int) (fuel pos : Nat) (h : kv.length ≤ pos) :
    kvEndGo kv fuel pos = pos := by
  cases fuel with
  | zero => rfl
  | succ f => simp [kvEndGo, List.getElem?_eq_none h]

lemma kvEnd_of_le (kv : List Int) (pos : Nat) (h : kv.length ≤ pos) :
    kvEnd kv pos = pos :=
  kvEndGo_of_le kv (kv.length + 1) pos h

lemma kvEndGo_ge (kv : List Int) :
    ∀ fuel pos, kv.length - pos < fuel → pos ≤ kv.length →
      kv.length ≤ kvEndGo kv fuel pos := by
  intro fuel
  induction fuel with
  | zero => intro pos h _; omega
  | succ f ih =>
    intro pos h hle
    rcases Nat.lt_or_ge pos kv.length with hlt | hge
    · rw [show kvEndGo kv (f + 1) pos =
          (if kv[pos] = 0 then kvEndGo kv f (pos + 1) else kvEndGo kv f (pos + 2)) by
        simp [kvEndGo, List.getElem?_eq_getElem hlt]]
      split
      · exact ih (pos + 1) (by omega) (by omega)
      · rcases le_or_lt (pos + 2) kv.length with h2 | h2
        · exact ih (pos + 2) (by omega) h2
        · rw [kvEndGo_of_le kv f (pos + 2) (by omega)]; omega
    · rw [kvEndGo_of_le kv (f + 1) pos hge]; omega

lemma kvEnd_ge (kv : List Int) (pos : Nat) (h : pos ≤ kv.length) :
    kv.length ≤ kvEnd kv pos :=
  kvEndGo_ge kv (kv.length + 1) pos (by omega) h

lemma primNextGo_isSome (block : PrimitiveBlock) (groups : List PrimitiveGroup)
    (filter : Nat) :
    ∀ fuel st, groups.length - st.group_pos < fuel →
      (primNextGo block groups filter fuel st).isSome := by
  intro fuel
  induction fuel with
  | zero => intro st h; omega
  | succ f ih =>
    intro st h
    unfold primNextGo
    cases hg : groups[st.group_pos]? with
    | none => simp
    | some g =>
      have hlt : st.group_pos < groups.length := by
        rcases Nat.lt_or_ge st.group_pos groups.length with hlt | hge
        · exact hlt
        · rw [List.getElem?_eq_none hge] at hg; cases hg
      simp only [hg]
      repeat' split
      all_goals first
        | simp
        | exact ih _ (by simpa using by omega)

lemma primNextGo_eq_primNext (block : PrimitiveBlock) (groups : List PrimitiveGroup)
    (filter : Nat) (st : IterState) :
    primNextGo block groups filter (groups.length + 1) st =
      some (primNext block groups filter st) := by
  have h := primNextGo_isSome block groups filter (groups.length + 1) st (by omega)
  unfold primNext
  cases hr : primNextGo block groups filter (groups.length + 1) st with
  | none => rw [hr] at h; cases h
  | some r => rfl

/-- Key-value cursor position after emitting `j` nodes of a dense group
entered with a fresh state: still 0 before the first node; the whole stream
consumed afterwards (the scan has no `break`). -/
def dsKvPos (d : DenseNodes) : Nat → Nat
  | 0 => 0
  | _ + 1 => d.keys_vals.length

/-- Dense decumulation state of the iterator after emitting `j` nodes of a
dense group entered with a fresh state: running sums of the first `j` deltas
plus the key-value cursor. -/
def dsAt (d : DenseNodes) (j : Nat) : DenseState :=
  ⟨sumTo d.id j, sumTo d.lat j, sumTo d.lon j, dsKvPos d j⟩

/-- The `keys_vals` slice handed to the `j`-th node of a dense group entered
with a fresh state: the whole stream for node 0, empty for every later node. -/
def kvSliceAt (d : DenseNodes) : Nat → List Int
  | 0 => d.keys_vals
  | _ + 1 => []

lemma primNext_dense_step (block : PrimitiveBlock) (groups : List PrimitiveGroup)
    (filter : Nat) (k : Nat) (g : PrimitiveGroup) (d : DenseNodes) (j : Nat)
    (hg : groups[k]? = some g) (hn : g.nodes = []) (hd : g.dense = some d)
    (hf : containsNode filter = true)
    (hkv : kvEnd d.keys_vals 0 ≤ d.keys_vals.length)
    (hj1 : j < d.id.length) (hj2 : j < d.lat.length) (hj3 : j < d.lon.length) :
    primNext block groups filter ⟨k, j, dsAt d j⟩ =
      .yield (.node (NodeRef.from_dense_node j (dsAt d (j + 1)) (kvSliceAt d j)
          d.denseinfo block))
        ⟨k, j + 1, dsAt d (j + 1)⟩ := by
  have hkv0 : kvEnd d.keys_vals 0 = d.keys_vals.length :=
    le_antisymm hkv (kvEnd_ge d.keys_vals 0 (Nat.zero_le _))
  have hkvlen : kvEnd d.keys_vals d.keys_vals.length = d.keys_vals.length :=
    kvEnd_of_le _ _ le_rfl
  unfold primNext primNextGo
  simp only [hg, hn, hd, hf, List.isEmpty_nil, Bool.not_true, Bool.and_false,
    Bool.false_eq_true, if_false, Option.isSome_some, Bool.and_true, if_true,
    Option.getD_some, List.getElem?_eq_getElem hj1, List.getElem?_eq_getElem hj2,
    List.getElem?_eq_getElem hj3, dsAt]
  rw [sumTo_succ d.id j hj1, sumTo_succ d.lat j hj2, sumTo_succ d.lon j hj3]
  cases j with
  | zero =>
    simp only [dsKvPos, kvSliceAt, hkv0, listSlice, Nat.zero_le, Nat.le_refl, and_self,
      if_true, List.drop_zero, Nat.sub_zero, List.take_length, Option.getD_some]
  | succ j' =>
    simp only [dsKvPos, kvSliceAt, hkvlen, listSlice, Nat.le_refl, and_self, if_true,
      Nat.sub_self, List.take_zero, Option.getD_some]

lemma primCall_dense (block : PrimitiveBlock) (groups : List PrimitiveGroup)
    (filter : Nat) (k : Nat) (g : PrimitiveGroup) (d : DenseNodes)
    (hg : groups[k]? = some g) (hn : g.nodes = []) (hd : g.dense = some d)
    (hf : containsNode filter = true)
    (hkv : kvEnd d.keys_vals 0 ≤ d.keys_vals.length) :
    ∀ n j, j + n < d.id.length → j + n < d.lat.length → j + n < d.lon.length →
      primCall block groups filter n ⟨k, j, dsAt d j⟩ =
        .yield (.node (NodeRef.from_dense_node (j + n) (dsAt d (j + n + 1))
            (kvSliceAt d (j + n)) d.denseinfo block))
          ⟨k, j + n + 1, dsAt d (j + n + 1)⟩ := by
  intro n
  induction n with
  | zero =>
    intro j h1 h2 h3
    simpa [primCall] using primNext_dense_step block groups filter k g d j hg hn hd hf hkv
      (by omega) (by omega) (by omega)
  | succ m ih =>
    intro j h1 h2 h3
    have hidx : j + (m + 1) = (j + 1) + m := by omega
    unfold primCall
    rw [primNext_dense_step block groups filter k g d j hg hn hd hf hkv
      (by omega) (by omega) (by omega), hidx]
    exact ih (j + 1) (by omega) (by omega) (by omega)

/-! ## Test fixtures -/

/-- An `Info` with no field set. -/
def infoNull : Info := ⟨none, none, none, none, none, none⟩

/-- A `DenseInfo` with all arrays empty. -/
def denseInfoNull : DenseInfo := ⟨[], [], [], [], [], []⟩

/-- A heterogeneous group: two non-dense nodes (ids 1, 2), a dense run of
three nodes (delta ids 3, 1, 1, so logical ids 3, 4, 5), two ways (ids 6, 7),
one relation (id 8) and one changeset (id 9). -/
def groupC1 : PrimitiveGroup where
  nodes := [⟨1, 0, 0, [], [], infoNull⟩, ⟨2, 0, 0, [], [], infoNull⟩]
  dense := some ⟨[3, 1, 1], [0, 0, 0], [0, 0, 0], [0, 0, 0], denseInfoNull⟩
  ways := [⟨6, [], [], []⟩, ⟨7, [], [], []⟩]
  relations := [⟨8, [], [], [], [], []⟩]
  changesets := [⟨9⟩]

/-- A block holding only `groupC1`. -/
def blockC1 : PrimitiveBlock := ⟨[], 100, 0, 0, 1000, [groupC1]⟩

/-- A dense-only group of two nodes whose `keys_vals` stream holds one tag
pair and one zero terminator per node: `[1, 2, 0, 3, 4, 0]`. -/
def groupC2 : PrimitiveGroup :=
  ⟨[], some ⟨[1, 1], [0, 0], [0, 0], [1, 2, 0, 3, 4, 0], denseInfoNull⟩, [], [], []⟩

/-- A block holding only `groupC2`. -/
def blockC2 : PrimitiveBlock := ⟨[], 100, 0, 0, 1000, [groupC2]⟩

/-- A dense-only group with a single node (delta id 1). -/
def groupC3a : PrimitiveGroup :=
  ⟨[], some ⟨[1], [0], [0], [0], denseInfoNull⟩, [], [], []⟩

/-- A dense run of two nodes with delta ids 5 and 7 (logical ids 5 and 12). -/
def denseC3b : DenseNodes := ⟨[5, 7], [0, 0], [0, 0], [0, 0], denseInfoNull⟩

/-- A dense-only group holding `denseC3b`. -/
def groupC3b : PrimitiveGroup := ⟨[], some denseC3b, [], [], []⟩

/-- A block with two consecutive dense groups. -/
def blockC3 : PrimitiveBlock := ⟨[], 1, 0, 0, 1000, [groupC3a, groupC3b]⟩

/-- The dense run of spec scenario S2: delta ids `[10, 5, 5]`, delta lats
`[1000, 100, -50]`, delta lons `[2000, 0, 0]`, three empty tag lists. -/
def denseC3w : DenseNodes :=
  ⟨[10, 5, 5], [1000, 100, -50], [2000, 0, 0], [0, 0, 0], denseInfoNull⟩

/-- A dense-only group holding `denseC3w`. -/
def groupC3w : PrimitiveGroup := ⟨[], some denseC3w, [], [], []⟩

/-- The S2 block: granularity 100, zero offsets. -/
def blockC3w : PrimitiveBlock := ⟨[], 100, 0, 0, 1000, [groupC3w]⟩

/-- Dense metadata with delta-coded arrays: timestamps `[100, 5]`, changesets
`[20, 1]`, uids `[7, 2]`, user_sids `[1, 1]`. -/
def denseInfoC4 : DenseInfo := ⟨[1, 1], [100, 5], [20, 1], [7, 2], [1, 1], [true, true]⟩

/-- A dense-only group of two nodes carrying `denseInfoC4`. -/
def groupC4 : PrimitiveGroup :=
  ⟨[], some ⟨[1, 1], [0, 0], [0, 0], [0, 0], denseInfoC4⟩, [], [], []⟩

/-- A block holding only `groupC4`. -/
def blockC4 : PrimitiveBlock := ⟨[], 100, 0, 0, 1000, [groupC4]⟩

/-- Observe the `Info` carried by a yielded node. -/
def primInfo : Primitive → Option Info
  | .node nr => some nr.info
  | _ => none

/-- String table for the `Tags::get` check: `S[1] = "a"`, `S[2] = "b"`,
`S[3] = "x"`, `S[4] = "y"` (as bytes). -/
def stringsC5 : List (List Nat) := [[], [97], [98], [120], [121]]

/-! ## Claims -/

/-- Claim C1. The claim states that within each primitive group the iterator
emits all entities of every selected non-empty category in the fixed order
nodes, dense nodes, ways, relations, changesets, advancing to the next group
only after every selected category is exhausted.  Evaluating the iterator on a
single group holding two non-dense nodes, three dense nodes, two ways, one
relation and one changeset (default filter) shows the code instead emits only
the two non-dense nodes — the first selected non-empty category — and then
finishes: the `else if` chain of `PrimitivesIter::next` never reaches the
other categories of a group once an earlier category is non-empty, and
`prim_pos` is not reset when `group_pos` advances. -/
theorem c1_only_first_nonempty_category_is_emitted :
    ((primRun blockC1 [groupC1] defaultFilter 10 ⟨0, 0, ⟨0, 0, 0, 0⟩⟩).1.map
        Primitive.kindId = [(0, 1), (0, 2)])
    ∧ (primRun blockC1 [groupC1] defaultFilter 10 ⟨0, 0, ⟨0, 0, 0, 0⟩⟩).2 = some true
    ∧ groupC1.dense.isSome = true
    ∧ groupC1.ways ≠ []
    ∧ groupC1.relations ≠ [] := by
  decide

/-- Claim C2. The claim states that the `i`-th dense node's tag slice runs
from the shared cursor up to (excluding) its own zero terminator.  Evaluating
the iterator on a dense group of two nodes with `keys_vals = [1, 2, 0, 3, 4, 0]`
shows the scan loop (which lacks a `break` on the zero terminator) hands the
whole stream — terminators included — to the first node and an empty slice to
the second, instead of `[1, 2]` and `[3, 4]`. -/
theorem c2_kv_scan_consumes_whole_stream :
    ((primRun blockC2 [groupC2] defaultFilter 10 ⟨0, 0, ⟨0, 0, 0, 0⟩⟩).1.map
        Primitive.kvSlice = [some [1, 2, 0, 3, 4, 0], some []])
    ∧ ([1, 2, 0, 3, 4, 0] : List Int) ≠ [1, 2]
    ∧ ([] : List Int) ≠ [3, 4] := by
  decide

/-- Claim C3, counterexample. On a block with two dense groups (delta ids
`[1]` and `[5, 7]`), the iterator emits the node of the first group (id 1) and
then a single node from the second group with id 7: because `prim_pos` is not
reset at the group boundary, the second group is entered at position 1 with
freshly zeroed sums, so its first emitted node has id 7 — neither the
cumulative sum 5 (of deltas 0..=0) nor 12 (of deltas 0..=1) — and the node
with id 5 is never emitted at all. -/
theorem c3_second_dense_group_entered_midway :
    ((primRun blockC3 [groupC3a, groupC3b] defaultFilter 10 ⟨0, 0, ⟨0, 0, 0, 0⟩⟩).1.map
        Primitive.kindId = [(0, 1), (0, 7)])
    ∧ sumTo denseC3b.id 1 = 5
    ∧ sumTo denseC3b.id 2 = 12 := by
  decide

/-- Claim C3, amended: for every dense-node group that the iterator enters
with a fresh position and fresh dense state (position 0 and zero sums — in
particular the first group of a block, or per-group iteration; groups entered
after earlier emissions start at the carried-over position instead), and whose
`keys_vals` scan stays within bounds, the `j`-th emitted node carries
`id = Σ id-deltas[0..=j]`, `nano_lat = lat_offset + (Σ lat-deltas[0..=j]) ·
granularity`, and likewise `nano_lon`. -/
theorem c3_dense_decumulation_from_fresh_state (block : PrimitiveBlock)
    (groups : List PrimitiveGroup) (filter : Nat) (k : Nat) (g : PrimitiveGroup)
    (d : DenseNodes) (j : Nat)
    (hg : groups[k]? = some g) (hn : g.nodes = []) (hd : g.dense = some d)
    (hf : containsNode filter = true)
    (hkv : kvEnd d.keys_vals 0 ≤ d.keys_vals.length)
    (hj1 : j < d.id.length) (hj2 : j < d.lat.length) (hj3 : j < d.lon.length) :
    resultIdLatLon (primCall block groups filter j ⟨k, 0, ⟨0, 0, 0, 0⟩⟩) =
      some (sumTo d.id (j + 1),
        block.lat_offset + sumTo d.lat (j + 1) * block.granularity,
        block.lon_offset + sumTo d.lon (j + 1) * block.granularity) := by
  have h0 : (⟨k, 0, ⟨0, 0, 0, 0⟩⟩ : IterState) = ⟨k, 0, dsAt d 0⟩ := rfl
  rw [h0, primCall_dense block groups filter k g d hg hn hd hf hkv j 0
    (by omega) (by omega) (by omega)]
  simp [resultIdLatLon, NodeRef.from_dense_node, dsAt, Nat.zero_add]

/-- Claim C3, witness: on the S2 block (delta ids `[10, 5, 5]`, delta lats
`[1000, 100, -50]`, delta lons `[2000, 0, 0]`, granularity 100, zero offsets)
the third call yields the node with id 20, `nano_lat` 105000 and `nano_lon`
200000. -/
theorem c3_dense_decumulation_witness :
    kvEnd denseC3w.keys_vals 0 ≤ denseC3w.keys_vals.length
    ∧ 2 < denseC3w.id.length
    ∧ resultIdLatLon (primCall blockC3w [groupC3w] defaultFilter 2 ⟨0, 0, ⟨0, 0, 0, 0⟩⟩) =
        some (20, 105000, 200000) :=
  ⟨by decide, by decide,
    (c3_dense_decumulation_from_fresh_state blockC3w [groupC3w] defaultFilter 0
        groupC3w denseC3w 2 rfl rfl rfl (by decide) (by decide) (by decide)
        (by decide) (by decide)).trans (by decide)⟩

/-- Claim C4. The claim states that dense-node `Info` fields and relation
member ids are exposed as running sums of their delta arrays.  Evaluating the
code shows both are returned raw: for a dense group whose `denseinfo` has
timestamps `[100, 5]`, changesets `[20, 1]`, uids `[7, 2]`, the second node's
`Info` carries timestamp 5 (not 105), changeset 1 (not 21) and uid 2 (not 9);
and for a relation with `memids = [7, 3]` the member iterator emits ids 7 and
3 (not 7 and 10). -/
theorem c4_delta_fields_returned_raw :
    ((primRun blockC4 [groupC4] defaultFilter 10 ⟨0, 0, ⟨0, 0, 0, 0⟩⟩).1.map primInfo
        = [some ⟨some 1, some 100, some 20, some 7, some 1, some true⟩,
           some ⟨some 1, some 5, some 1, some 2, some 1, some true⟩])
    ∧ sumTo denseInfoC4.timestamp 2 = 105
    ∧ sumTo denseInfoC4.changeset 2 = 21
    ∧ sumTo denseInfoC4.uid 2 = 9
    ∧ membersList [[]] [0, 0] [7, 3] [0, 0] = [.node 7 [], .node 3 []]
    ∧ sumTo [7, 3] 2 = 10 := by
  decide

/-- Claim C5. The claim states that `Tags::get` scans `keys` and `vals` in
lockstep and returns `S[vals[i]]` for the first matching position `i`.  In the
code `vals.next()` is only called after a key matches, so `vals` lags behind
`keys`: with `S = ["", "a", "b", "x", "y"]`, `keys = [1, 2]`, `vals = [3, 4]`,
looking up key `"b"` (which matches at position 1) returns `"x" = S[3] =
S[vals[0]]` instead of `"y" = S[4] = S[vals[1]]`. -/
theorem c5_get_value_cursor_lags_behind :
    tagsGetNormal stringsC5 [98] [1, 2] [3, 4] = some [120]
    ∧ ([3, 4] : List Nat)[1]? = some 4
    ∧ stringsC5[4]? = some [121]
    ∧ ([120] : List Nat) ≠ [121] := by
  decide

/-- Concrete `BlobHeader` parser for the rewind check: the one-byte window
`[42]` decodes to the header frame's `BlobHeader`, the window `[43]` to the
data frame's. -/
def bhC6 : List Nat → Option BlobHeader := fun w =>
  if w = [42] then some ⟨"OSMHeader", 1⟩
  else if w = [43] then some ⟨"OSMData", 1⟩
  else none

/-- Concrete `HeaderBlock` parser: the window `[7]` decodes to a header block
requiring only `DenseNodes`. -/
def hbC6 : List Nat → Option HeaderBlock := fun w =>
  if w = [7] then some ⟨["DenseNodes"], []⟩ else none

/-- Concrete blob parser: the window `[9]` decodes to the (unit) data blob. -/
def blobC6 : List Nat → Option Unit := fun w =>
  if w = [9] then some () else none

/-- A well-formed two-frame file: a 1-byte `OSMHeader` frame (prefix
`[0,0,0,1]`, header window `[42]`, data window `[7]`) followed by a 1-byte
`OSMData` frame (prefix `[0,0,0,1]`, header window `[43]`, data window `[9]`). -/
def fileC6 : List Nat := [0, 0, 0, 1, 42, 7, 0, 0, 0, 1, 43, 9]

/-- Claim C6. The claim states that after `rewind()` the next frame read is
the first data frame, so `next_primitive_block` returns the first data blob.
On a well-formed file (header frame then data frame), opening and reading the
data frame succeeds; but `rewind` merely seeks the source back to byte 0
without re-reading or skipping the header frame, so the immediately following
`next_primitive_block` reads the `"OSMHeader"` frame and fails with
`UnexpectedBlobType("OSMHeader")` instead of returning the first data blob. -/
theorem c6_rewind_seeks_to_byte_zero :
    fromBufRead bhC6 hbC6 ⟨fileC6, 0⟩ = .ok ⟨⟨["DenseNodes"], []⟩, ⟨fileC6, 6⟩⟩
    ∧ nextPrimitiveBlock bhC6 blobC6 ⟨⟨["DenseNodes"], []⟩, ⟨fileC6, 6⟩⟩
        = .ok (some ((), ⟨⟨["DenseNodes"], []⟩, ⟨fileC6, 12⟩⟩))
    ∧ nextPrimitiveBlock bhC6 blobC6 (Blobs.rewind ⟨⟨["DenseNodes"], []⟩, ⟨fileC6, 12⟩⟩)
        = .error (.unexpectedBlobType "OSMHeader") :=
  ⟨rfl, rfl, rfl⟩

/-- A parser that never succeeds (it is not reached in the C7 scenarios). -/
def bhC7 : List Nat → Option BlobHeader := fun _ => none

/-- A blob parser that never succeeds (not reached in the C7 scenarios). -/
def blobC7 : List Nat → Option Unit := fun _ => none

/-- Claim C7, counterexample. With only 2 bytes available before EOF (a
partial big-endian size prefix), `next_blob` and `next_primitive_block` both
return a clean `Ok(None)` — not an `UnexpectedEof` error as the claim states:
`byteorder`'s `read_u32` reports any shortfall, partial or empty, as an
`UnexpectedEof`-kind io error, and `_read_blob_header` maps that error kind to
`Ok(None)` without distinguishing the two cases. -/
theorem c7_partial_size_prefix_is_silent :
    nextBlob bhC7 blobC7 ⟨⟨[], []⟩, ⟨[0, 0], 0⟩⟩ = .ok none
    ∧ nextPrimitiveBlock bhC7 blobC7 ⟨⟨[], []⟩, ⟨[0, 0], 0⟩⟩ = .ok none
    ∧ ([0, 0] : List Nat).length = 2 :=
  ⟨rfl, rfl, rfl⟩

/-- Claim C7, amended: whenever fewer than 4 bytes remain (zero bytes or a
partial 1-to-3-byte prefix), `next_blob` and `next_primitive_block` return
cleanly with `None`; the partial prefix is not distinguished from clean EOF. -/
theorem c7_short_remaining_input_yields_none {β : Type}
    (parseBH : List Nat → Option BlobHeader) (parseBlob : List Nat → Option β)
    (hb : HeaderBlock) (d : List Nat) (p : Nat) (h : d.length < p + 4) :
    nextBlob parseBH parseBlob ⟨hb, ⟨d, p⟩⟩ = .ok none
    ∧ nextPrimitiveBlock parseBH parseBlob ⟨hb, ⟨d, p⟩⟩ = .ok none := by
  have h4 : d[p + 3]? = none := List.getElem?_eq_none (by omega)
  have hr : readU32BE ⟨d, p⟩ = none := by
    unfold readU32BE
    cases d[p]? <;> cases d[p + 1]? <;> cases d[p + 2]? <;> simp [h4]
  constructor <;> simp [nextBlob, nextPrimitiveBlock, readBlobHeader, hr]

/-- Claim C7, witness: a 3-byte stream (partial prefix) makes both calls
return `Ok(None)`. -/
theorem c7_short_remaining_input_witness :
    ([0, 0, 0] : List Nat).length < 0 + 4
    ∧ (nextBlob bhC7 blobC7 ⟨⟨[], []⟩, ⟨[0, 0, 0], 0⟩⟩ = .ok none
      ∧ nextPrimitiveBlock bhC7 blobC7 ⟨⟨[], []⟩, ⟨[0, 0, 0], 0⟩⟩ = .ok none) :=
  ⟨by decide,
    c7_short_remaining_input_yields_none bhC7 blobC7 ⟨[], []⟩ [0, 0, 0] 0 (by decide)⟩

/-- Concrete `BlobHeader` parser for the feature check: window `[42]` decodes
to the 1-byte `OSMHeader` frame header. -/
def bhC8 : List Nat → Option BlobHeader := fun w =>
  if w = [42] then some ⟨"OSMHeader", 1⟩ else none

/-- Concrete `HeaderBlock` parser: window `[7]` decodes to a header block
advertising the unknown required feature `"Foo"`. -/
def hbC8 : List Nat → Option HeaderBlock := fun w =>
  if w = [7] then some ⟨["Foo"], []⟩ else none

/-- A file whose single frame is an `OSMHeader` block requiring `"Foo"`. -/
def fileC8 : List Nat := [0, 0, 0, 1, 42, 7]

/-- Claim C8. The claim states that opening a file whose header advertises a
required feature outside the known-supported set (`DenseNodes`,
`HistoricalInformation`) fails with `UnknownRequiredFeature` before any data
iteration.  Evaluating the open path (`from_buf_read` / `_read_header_block`)
on a file requiring the unknown feature `"Foo"` shows it succeeds and returns
the reader: no code inspects `required_features` at all (the vocabulary
constants in `header.rs` are never consulted), so no `UnknownRequiredFeature`
error can ever surface. -/
theorem c8_unknown_required_feature_is_accepted :
    fromBufRead bhC8 hbC8 ⟨fileC8, 0⟩ = .ok ⟨⟨["Foo"], []⟩, ⟨fileC8, 6⟩⟩
    ∧ "Foo" ∉ knownRequiredFeatures :=
  ⟨rfl, by decide⟩

lemma tagsNormal_eq (s : List (List Nat)) :
    ∀ keys vals, tagsNormal s keys vals = (keys.zip vals).filterMap (tagPairOk s)
  | [], _ => by simp [tagsNormal]
  | _ :: _, [] => by simp [tagsNormal]
  | k :: ks, v :: vs => by
    simp only [List.zip_cons_cons, List.filterMap_cons]
    cases hk : lookupValidStr s k <;> cases hv : lookupValidStr s v <;>
      simp [tagsNormal, tagPairOk, hk, hv, tagsNormal_eq s ks vs]

lemma tagsDense_eq (s : List (List Nat)) :
    ∀ kv, tagsDense s kv = (chunkPairs kv).filterMap
      (fun p => tagPairOk s (idxOfI32 p.1, idxOfI32 p.2))
  | [] => by simp [tagsDense, chunkPairs]
  | [_] => by simp [tagsDense, chunkPairs]
  | a :: b :: r => by
    simp only [chunkPairs, List.filterMap_cons]
    cases hk : lookupValidStr s (idxOfI32 a) <;>
      cases hv : lookupValidStr s (idxOfI32 b) <;>
        simp [tagsDense, tagPairOk, hk, hv, tagsDense_eq s r]

/-- Claim C9: tag iteration is total and yields exactly the pairs whose two
indices are in range of the string table and whose two byte strings are valid
UTF-8, in both layouts — every other pair of the same entity is silently
skipped and iteration continues.  In the normal layout the pair stream is the
lockstep zip of `keys` and `vals`; in the dense layout it is the pairwise
chunking of the flat stream (each `i32` index cast with `as usize`). -/
theorem c9_tags_iteration_skips_exactly_invalid_pairs :
    ∀ (s : List (List Nat)) (keys vals : List Nat) (kv : List Int),
      tagsNormal s keys vals = (keys.zip vals).filterMap (tagPairOk s)
      ∧ tagsDense s kv = (chunkPairs kv).filterMap
          (fun p => tagPairOk s (idxOfI32 p.1, idxOfI32 p.2)) :=
  fun s keys vals kv => ⟨tagsNormal_eq s keys vals, tagsDense_eq s kv⟩

/-- A dense-only group whose `keys_vals` stream is the single nonzero entry
`[1]`: the scan steps the cursor from 0 to 2 on a stream of length 1. -/
def groupC10 : PrimitiveGroup :=
  ⟨[], some ⟨[0], [0], [0], [1], denseInfoNull⟩, [], [], []⟩

/-- A block holding only `groupC10`. -/
def blockC10 : PrimitiveBlock := ⟨[], 100, 0, 0, 1000, [groupC10]⟩

/-- Claim C10, counterexample. The claim states every call to
`PrimitivesIter::next` returns `Some` or `None`.  On a dense group whose
`keys_vals` stream is `[1]` the key-value scan ends at position 2, and the
slice expression `&keys_vals[0..2]` on the length-1 stream panics, so the call
completes with a panic rather than `Some` or `None`. -/
theorem c10_next_can_panic :
    primNext blockC10 [groupC10] defaultFilter ⟨0, 0, ⟨0, 0, 0, 0⟩⟩ = .panic := by
  decide

/-- Claim C10, amended: every call to `PrimitivesIter::next` terminates after
finitely many loop iterations — at most `groups.length + 1`, since every
iteration that does not produce an outcome advances `group_pos` — completing
with `Some`, `None`, or (when a dense `keys_vals` slice bound overshoots the
end of the stream) a panic. -/
theorem c10_next_terminates_within_group_count :
    ∀ (block : PrimitiveBlock) (groups : List PrimitiveGroup) (filter : Nat)
      (st : IterState),
      primNextGo block groups filter (groups.length + 1) st =
        some (primNext block groups filter st) :=
  fun block groups filter st => primNextGo_eq_primNext block groups filter st

end OsmPbf
